import Mathlib

/-!
# Verification of the rwgfx animation / widget-update / glyph-cache core

Shallow embedding of the algorithmic core of the `rwgfx` crate:

* `src/animation.rs` — the generic time-driven interpolator `Animated<T>`;
* `src/button.rs`    — the `Button` widget (event handling, per-frame update,
  dirty-flag gated buffer synchronisation at draw time);
* `src/sprite.rs`    — the `Sprite` widget draw path;
* `src/text.rs`      — the glyph-cache growth state machine (`TextHandler`,
  `FontData`, `Text`).

Modelling conventions:

* `chrono::Duration` values are modelled as integer nanosecond counts (`ℤ`);
  `Duration::milliseconds(n)` is `msNs n`.  All concrete durations appearing
  in the development are far below the `i64` nanosecond overflow handled by
  `num_nanoseconds().unwrap_or(i64::MAX)` in the source.
* `f32` values are modelled as rationals (`ℚ`).  Every concrete computation
  exercised by a theorem below is exact in `f32` (the nanosecond counts in
  use are of the form `k·2^e` with `k < 2^24`, and the alpha increments stay
  in `{0, 0.1, 0.2}` where `0.1f32 + 0.1f32` and subtraction back are exact),
  so the rational model and the IEEE evaluation coincide on those inputs.
* GPU-side effects (the opaque `GraphicsBackend` collaborator of the spec:
  `write_buffer`, `write_texture`, bind-group/vertex/index binding and
  `draw_indexed`) are modelled as a trace of emitted `GpuCall` events.
-/

/-- `Duration::milliseconds n` as a nanosecond count. -/
def msNs (n : ℤ) : ℤ := n * 1000000

/-- The arithmetic capabilities `Animated<T>` requires of `T` in
`src/animation.rs`: `T: Sub` (producing a delta), the delta is `Mul<f32>`
(scaling), and `T: AddAssign` of the scaled delta.  Instantiated for `f32`
(as `ℚ`) and for `cgmath` points/vectors (as pairs, componentwise). -/
class Lerp (α : Type) where
  subv : α → α → α
  scalev : α → ℚ → α
  addv : α → α → α

instance LerpRat : Lerp ℚ where
  subv a b := a - b
  scalev d p := d * p
  addv a d := a + d

instance LerpPair : Lerp (ℚ × ℚ) where
  subv a b := (a.1 - b.1, a.2 - b.2)
  scalev d p := (d.1 * p, d.2 * p)
  addv a d := (a.1 + d.1, a.2 + d.2)

/-- `Animated<T>` from `src/animation.rs`: a value interpolating toward a
target over a fixed duration.  Durations are nanosecond counts. -/
structure Animated (α : Type) where
  /-- Value the data needs to get to. -/
  target : α
  /-- Current value of the data. -/
  current : α
  /-- Animation duration from begin to end. -/
  duration : ℤ
  /-- Amount of time the animation has been going for. -/
  elapsed_time : ℤ
deriving Repr, DecidableEq

namespace Animated

variable {α : Type} [DecidableEq α] [Lerp α]

/-- `Animated::complete`: the animation is complete when `target == current`. -/
def complete (a : Animated α) : Bool := decide (a.target = a.current)

/-- `Animated::new`: `target = current = initial`, `elapsed_time = 0`. -/
def new (current : α) (duration : ℤ) : Animated α :=
  { target := current, current := current, duration := duration, elapsed_time := 0 }

/-- `Animated::set_target`: set a new target and restart the timer;
`current` is left untouched. -/
def set_target (a : Animated α) (target : α) : Animated α :=
  { a with target := target, elapsed_time := 0 }

/-- `Animated::update`.  If the remaining time is `<= elapsed`, snap to the
target and saturate the timer; otherwise close `elapsed/remaining` of the
gap (skipped when that ratio would be `NaN`, i.e. `0.0/0.0`) and advance the
timer. -/
def update (a : Animated α) (elapsed : ℤ) : Animated α :=
  let remaining_time := a.duration - a.elapsed_time
  if remaining_time ≤ elapsed then
    { a with current := a.target, elapsed_time := a.duration }
  else
    let elapsed_nanoseconds : ℚ := (elapsed : ℚ)
    let remaining_nanoseconds : ℚ := (remaining_time : ℚ)
    let progress_perc : ℚ := elapsed_nanoseconds / remaining_nanoseconds
    -- `progress_perc.is_nan()` holds exactly when `0.0 / 0.0` was computed.
    let progress_is_nan : Bool := decide (elapsed = 0 ∧ remaining_time = 0)
    let current' :=
      if progress_is_nan then a.current
      else Lerp.addv a.current (Lerp.scalev (Lerp.subv a.target a.current) progress_perc)
    { a with current := current', elapsed_time := a.elapsed_time + elapsed }

end Animated

/-- An operation applied to an `Animated` value after construction: either a
retarget (`set_target`) or a frame tick (`update`). -/
inductive AnimOp (α : Type) where
  | setTarget (t : α)
  | tick (dt : ℤ)
deriving Repr, DecidableEq

namespace AnimOp

variable {α : Type} [DecidableEq α] [Lerp α]

/-- Apply one operation. -/
def apply (a : Animated α) : AnimOp α → Animated α
  | setTarget t => a.set_target t
  | tick dt => a.update dt

/-- The tick amount of an operation is non-negative (`setTarget` has none). -/
def nonnegDt : AnimOp α → Bool
  | setTarget _ => true
  | tick dt => decide (0 ≤ dt)

/-- Run a sequence of operations left to right. -/
def run (a : Animated α) (ops : List (AnimOp α)) : Animated α :=
  ops.foldl AnimOp.apply a

end AnimOp

/-- `vertex::Plain` from `src/vertex.rs`: position only. -/
structure PlainVertex where
  position : ℚ × ℚ
deriving Repr, DecidableEq

/-- `vertex::Textured` from `src/vertex.rs`: position and texture
coordinates. -/
structure TexturedVertex where
  position : ℚ × ℚ
  tex_coords : ℚ × ℚ
deriving Repr, DecidableEq

/-- `shader::general::MeshUniform` as constructed and mutated by the widget
call sites (`MeshUniform::new(position, z, overlay_alpha, back_colour)` in
`src/button.rs`, `src/sprite.rs` and `src/text.rs`, which also read and write
the `position` and `overlay_alpha` fields).  The checked-in
`src/shader/general.rs` is a stale three-argument revision whose fourth word
is padding; the widgets' four-argument interface is what the claims exercise
and is modelled here. -/
structure MeshUniform where
  position : ℚ × ℚ
  z : ℚ
  overlay_alpha : ℚ
  back_colour : ℚ × ℚ × ℚ × ℚ
deriving Repr, DecidableEq

/-- `MeshUniform::new`. -/
def MeshUniform.new (position : ℚ × ℚ) (z : ℚ) (overlay_alpha : ℚ)
    (back_colour : ℚ × ℚ × ℚ × ℚ) : MeshUniform :=
  { position := position, z := z, overlay_alpha := overlay_alpha, back_colour := back_colour }

/-- The GPU-resident buffers owned by a widget. -/
inductive BufKind where
  | vertex
  | index
  | meshUniform
deriving Repr, DecidableEq

/-- One call into the opaque `GraphicsBackend` collaborator (spec §6),
recorded as a trace event: buffer upload, texture upload, bind-group /
vertex-buffer / index-buffer binding, or an indexed draw submission. -/
inductive GpuCall where
  | writeBuffer (buf : BufKind)
  | writeTexture
  | setBindGroup (slot : ℕ)
  | setVertexBuffer (slot : ℕ)
  | setIndexBuffer
  | drawIndexed (indexCount : ℕ)
deriving Repr, DecidableEq

/-- Number of uploads of buffer `buf` in a trace. -/
def countWrites (calls : List GpuCall) (buf : BufKind) : ℕ :=
  (calls.filter (fun c => c = GpuCall.writeBuffer buf)).length

/-- Whether a trace contains any draw-sequence call (bind group, vertex or
index buffer binding, or indexed draw). -/
def hasDrawSequenceCall (calls : List GpuCall) : Bool :=
  calls.any (fun c =>
    match c with
    | GpuCall.setBindGroup _ => true
    | GpuCall.setVertexBuffer _ => true
    | GpuCall.setIndexBuffer => true
    | GpuCall.drawIndexed _ => true
    | _ => false)

/-- Severity of a log message emitted through `rwlog`. -/
inductive LogLevel where
  | warn
  | err
deriving Repr, DecidableEq

/-- The window events `Button::consume_event` reacts to (`src/button.rs`):
cursor movement and left-mouse-button input.  `other` stands for any other
`winit::WindowEvent` (ignored by the match) and `mouseInputLeft true/false`
for `ElementState::Pressed`/`Released` on `MouseButton::Left`. -/
inductive ButtonEvent where
  | cursorMoved (x y : ℚ)
  | mouseInputLeft (pressed : Bool)
  | other
deriving Repr, DecidableEq

/-- `Button` from `src/button.rs` (logical state; the `wgpu` buffer and
bind-group handles are opaque GPU objects and are represented only through
the `GpuCall` traces their draw path emits). -/
structure Button where
  position : Animated (ℚ × ℚ)
  size : Animated (ℚ × ℚ)
  z_index : ℚ
  hovered : Bool
  pressed : Bool
  back_colour : ℚ × ℚ × ℚ × ℚ
  overlay_alpha : Animated ℚ
  vertices : List PlainVertex
  mesh_uniform : MeshUniform
  vertex_buffer_to_update : Bool
  mesh_uniform_buffer_to_update : Bool
deriving Repr, DecidableEq

namespace Button

/-- `INDICES` from `src/button.rs`. -/
def INDICES : List ℕ := [0, 1, 2, 2, 3, 0]

/-- `Button::compute_vertices`. -/
def compute_vertices (size : ℚ × ℚ) : List PlainVertex :=
  [ { position := (0, 0) },
    { position := (0, size.2) },
    { position := (size.1, size.2) },
    { position := (size.1, 0) } ]

/-- `Button::new`.  Durations from the source: 200 ms for position and size,
100 ms for the overlay alpha; the overlay alpha starts at `0.0`. -/
def new (position : ℚ × ℚ) (size : ℚ × ℚ) (z_index : ℚ)
    (back_colour : ℚ × ℚ × ℚ × ℚ) : Button :=
  { position := Animated.new position (msNs 200)
    size := Animated.new size (msNs 200)
    z_index := z_index
    hovered := false
    pressed := false
    back_colour := back_colour
    overlay_alpha := Animated.new 0 (msNs 100)
    vertices := compute_vertices size
    mesh_uniform := MeshUniform.new position z_index 0 back_colour
    vertex_buffer_to_update := false
    mesh_uniform_buffer_to_update := false }

/-- `Button::consume_event`: returns the mutated button and whether the
event was consumed.  The `0.1` alpha increments are `(1 : ℚ)/10`; on the
reachable alpha values `{0, 0.1, 0.2}` the `f32` additions and subtractions
are exact, so the rational model coincides with the source. -/
def consume_event (b : Button) : ButtonEvent → Button × Bool
  | ButtonEvent.cursorMoved x y =>
    let current_button_position := b.position.current
    let current_button_size := b.size.current
    let right_coord := current_button_position.1 + current_button_size.1
    let down_coord := current_button_position.2 + current_button_size.2
    if current_button_position.1 ≤ x ∧ x ≤ right_coord
        ∧ current_button_position.2 ≤ y ∧ y ≤ down_coord then
      if !b.hovered then
        ({ b with hovered := true
                  overlay_alpha := b.overlay_alpha.set_target (b.overlay_alpha.target + 1/10) },
          true)
      else (b, false)
    else
      if b.hovered then
        ({ b with hovered := false
                  overlay_alpha := b.overlay_alpha.set_target (b.overlay_alpha.target - 1/10) },
          true)
      else (b, false)
  | ButtonEvent.mouseInputLeft pressedState =>
    if b.pressed then
      if pressedState = false then
        ({ b with pressed := false
                  overlay_alpha := b.overlay_alpha.set_target (b.overlay_alpha.target - 1/10) },
          true)
      else (b, false)
    else
      if b.hovered ∧ pressedState = true then
        ({ b with pressed := true
                  overlay_alpha := b.overlay_alpha.set_target (b.overlay_alpha.target + 1/10) },
          true)
      else (b, false)
  | ButtonEvent.other => (b, false)

/-- Process a sequence of events, discarding the consumed flags. -/
def consume_events (b : Button) (events : List ButtonEvent) : Button :=
  events.foldl (fun b e => (consume_event b e).1) b

/-- `Button::update`: advance each incomplete animation, refresh the cached
snapshot it feeds, and mark the corresponding dirty flag. -/
def update (b : Button) (elapsed : ℤ) : Button :=
  -- Position update.
  let b :=
    if !b.position.complete then
      let position := b.position.update elapsed
      { b with position := position
               mesh_uniform := { b.mesh_uniform with position := position.current }
               mesh_uniform_buffer_to_update := true }
    else b
  -- Size update.
  let b :=
    if !b.size.complete then
      let size := b.size.update elapsed
      { b with size := size
               vertices := compute_vertices size.current
               vertex_buffer_to_update := true }
    else b
  -- Overlay alpha update.
  let b :=
    if !b.overlay_alpha.complete then
      let overlay_alpha := b.overlay_alpha.update elapsed
      { b with overlay_alpha := overlay_alpha
               mesh_uniform := { b.mesh_uniform with overlay_alpha := overlay_alpha.current }
               mesh_uniform_buffer_to_update := true }
    else b
  b

/-- `Button::draw`: the trace of backend calls it emits and the button with
its dirty flags cleared.  In the source the vertex-buffer upload is
commented out (`src/button.rs:136`) while the flag is still reset, so the
vertex branch emits no `writeBuffer` event. -/
def draw (b : Button) : List GpuCall × Button :=
  -- Update the vertex buffer (upload commented out in the source).
  let step₁ : List GpuCall × Button :=
    if b.vertex_buffer_to_update then
      ([], { b with vertex_buffer_to_update := false })
    else ([], b)
  let calls₁ := step₁.1
  let b := step₁.2
  -- Update the mesh uniform buffer.
  let step₂ : List GpuCall × Button :=
    if b.mesh_uniform_buffer_to_update then
      ([GpuCall.writeBuffer BufKind.meshUniform], { b with mesh_uniform_buffer_to_update := false })
    else ([], b)
  let calls₂ := step₂.1
  let b := step₂.2
  -- Perform the draw calls.
  (calls₁ ++ calls₂ ++
    [GpuCall.setBindGroup 1, GpuCall.setVertexBuffer 0, GpuCall.setIndexBuffer,
     GpuCall.drawIndexed INDICES.length], b)

end Button

namespace texture

/-- `texture::ID_INVALID` from `src/texture.rs`. -/
def ID_INVALID : ℕ := 0

/-- `texture::ID_EMPTY` from `src/texture.rs`: the guaranteed-loaded empty
texture. -/
def ID_EMPTY : ℕ := 1

end texture

/-- `Sprite` from `src/sprite.rs` (logical state, GPU handles elided as for
`Button`). -/
structure Sprite where
  vertices : List TexturedVertex
  mesh_uniform : MeshUniform
  texture_id : ℕ
  vertex_buffer_to_update : Bool
  mesh_uniform_buffer_to_update : Bool
deriving Repr, DecidableEq

namespace Sprite

/-- `INDICES` from `src/sprite.rs`. -/
def INDICES : List ℕ := [0, 1, 2, 2, 3, 0]

/-- `Sprite::compute_vertices`. -/
def compute_vertices (size : ℚ × ℚ) : List TexturedVertex :=
  [ { position := (0, 0), tex_coords := (0, 0) },
    { position := (0, size.2), tex_coords := (0, 1) },
    { position := (size.1, size.2), tex_coords := (1, 1) },
    { position := (size.1, 0), tex_coords := (1, 0) } ]

/-- `Sprite::new`: `texture_id` defaults to `texture::ID_EMPTY`. -/
def new (position : ℚ × ℚ) (size : ℚ × ℚ) (z_index : ℚ)
    (back_colour : ℚ × ℚ × ℚ × ℚ) (texture_id : Option ℕ) : Sprite :=
  { vertices := compute_vertices size
    mesh_uniform := MeshUniform.new position z_index 0 back_colour
    vertex_buffer_to_update := false
    mesh_uniform_buffer_to_update := false
    texture_id := texture_id.getD texture.ID_EMPTY }

/-- The texture lookup in `Sprite::draw`
(`textures.get(id).unwrap_or(textures.get(ID_EMPTY).expect(..))`):
`none` models the `expect` panic, which fires exactly when the empty texture
is not loaded (Rust's `unwrap_or` evaluates its default eagerly). -/
def resolveTexture {τ : Type} (textures : List (ℕ × τ)) (texture_id : ℕ) : Option τ :=
  match textures.lookup texture.ID_EMPTY with
  | none => none
  | some empty => some ((textures.lookup texture_id).getD empty)

/-- `Sprite::draw`: emits the dirty-flag-gated buffer uploads, resolves the
texture (with the empty-texture fallback), then the fixed draw sequence.
`none` models the panic when no empty texture is loaded.  The result carries
the texture that was bound at slot 2. -/
def draw {τ : Type} (s : Sprite) (textures : List (ℕ × τ)) :
    Option (List GpuCall × Sprite × τ) :=
  -- Update the vertex buffer.
  let step₁ : List GpuCall × Sprite :=
    if s.vertex_buffer_to_update then
      ([GpuCall.writeBuffer BufKind.vertex], { s with vertex_buffer_to_update := false })
    else ([], s)
  let calls₁ := step₁.1
  let s := step₁.2
  -- Update the mesh uniform buffer.
  let step₂ : List GpuCall × Sprite :=
    if s.mesh_uniform_buffer_to_update then
      ([GpuCall.writeBuffer BufKind.meshUniform], { s with mesh_uniform_buffer_to_update := false })
    else ([], s)
  let calls₂ := step₂.1
  let s := step₂.2
  match resolveTexture textures s.texture_id with
  | none => none
  | some tex =>
    -- Perform the draw calls.
    some (calls₁ ++ calls₂ ++
      [GpuCall.setBindGroup 1, GpuCall.setBindGroup 2, GpuCall.setVertexBuffer 0,
       GpuCall.setIndexBuffer, GpuCall.drawIndexed INDICES.length], s, tex)

/-- `Sprite::set_size`. -/
def set_size (s : Sprite) (size : ℚ × ℚ) : Sprite :=
  { s with vertices := compute_vertices size, vertex_buffer_to_update := true }

end Sprite

/-- `text::ID_INVALID` from `src/text.rs`. -/
def fontID_INVALID : ℕ := 0

/-- `text::ID_DEFAULT` from `src/text.rs`: the always-loaded default font. -/
def fontID_DEFAULT : ℕ := 1

/-- A `rusttype::Rect<f32>` (texture-space rectangle). -/
structure RectQ where
  min : ℚ × ℚ
  max : ℚ × ℚ
deriving Repr, DecidableEq

/-- A `rusttype::Rect<i32>` (pixel-space rectangle). -/
structure RectZ where
  min : ℤ × ℤ
  max : ℤ × ℤ
deriving Repr, DecidableEq

/-- The `rusttype::gpu_cache::Cache`, reduced to what `src/text.rs` observes
of it: its dimensions and the `rect_for(font_index, glyph)` lookup.  Glyphs
are abstracted by the type `γ`.  A freshly built cache
(`Cache::builder().dimensions(w, h).build()`) has no cached rectangles. -/
structure GlyphCache (γ : Type) where
  width : ℕ
  height : ℕ
  rect_for : ℕ → γ → Option (RectQ × RectZ)

/-- `FontData` from `src/text.rs`.  The `font : Font<'static>` field is the
external rusttype collaborator (it only feeds the glyph layout loop, whose
output is passed explicitly where needed) and is elided. -/
structure FontData (γ : Type) where
  cache : GlyphCache γ
  enlarge_cache : Bool
  cache_texture_width : ℕ
  cache_texture_height : ℕ
  next_glyph_id : ℕ
  positioned_glyphs : List (ℕ × List γ)

namespace FontData

/-- `FontData::add_glyphs`: store a positioned-glyph run under the next free
ID; returns the ID and the mutated font data. -/
def add_glyphs {γ : Type} (fd : FontData γ) (glyphs : List γ) : ℕ × FontData γ :=
  (fd.next_glyph_id,
    { fd with
      positioned_glyphs := (fd.next_glyph_id, glyphs) :: fd.positioned_glyphs
      next_glyph_id := fd.next_glyph_id + 1 })

end FontData

/-- `TextHandler` from `src/text.rs`: font data keyed by font ID. -/
structure TextHandler (γ : Type) where
  fonts : List (ℕ × FontData γ)

/-- `TextHandler::create_cache`: a fresh cache plus its GPU texture, both
with the given dimensions (the texture upload itself is an opaque backend
call and always succeeds in the model). -/
def TextHandler.create_cache (γ : Type) (width height : ℕ) : GlyphCache γ × ℕ × ℕ :=
  ({ width := width, height := height, rect_for := fun _ _ => none }, width, height)

/-- `TextHandler::new`: only the default font is loaded, with a fresh
1024×1024 cache and a zeroed enlarge flag. -/
def TextHandler.new (γ : Type) : TextHandler γ :=
  let created := TextHandler.create_cache γ 1024 1024
  { fonts := [(fontID_DEFAULT,
    { cache := created.1
      enlarge_cache := false
      cache_texture_width := created.2.1
      cache_texture_height := created.2.2
      next_glyph_id := 1
      positioned_glyphs := [] })] }

/-- The per-font body of `TextHandler::resize_caches`: when the enlarge flag
is set, rebuild the cache and its texture at double both dimensions and
clear the flag; otherwise leave the font data untouched. -/
def FontData.resize_step {γ : Type} (fd : FontData γ) : FontData γ :=
  if fd.enlarge_cache then
    let created := TextHandler.create_cache γ
      (fd.cache_texture_width * 2) (fd.cache_texture_height * 2)
    { fd with
      cache := created.1
      cache_texture_width := created.2.1
      cache_texture_height := created.2.2
      enlarge_cache := false }
  else fd

/-- `TextHandler::resize_caches`: apply the resize step to every loaded
font. -/
def TextHandler.resize_caches {γ : Type} (th : TextHandler γ) : TextHandler γ :=
  { fonts := th.fonts.map (fun p => (p.1, p.2.resize_step)) }

/-- `TextDescriptor` from `src/text.rs` (`color` is a `color::Decimal`,
four `u8` channels). -/
structure TextDescriptor where
  font_id : ℕ
  font_size : ℚ
  color : ℕ × ℕ × ℕ × ℕ
  position : ℚ × ℚ
  size : ℚ × ℚ
  z : ℚ
deriving Repr, DecidableEq

/-- Truncation to `u16`, as performed by Rust's `as u16` casts and (in
release builds) by wrapping `u16` arithmetic. -/
def u16cast (n : ℕ) : ℕ := n % 65536

/-- The vertex computation of `Text::new` (`src/text.rs:395-432`): for each
positioned glyph whose rectangle is resident in the cache — looked up via
`cache.rect_for(0, g)`, with the font index hard-coded to `0` — emit one
quad of four textured vertices; glyphs without a cached rectangle are
filtered out. -/
def textVertices {γ : Type} (rect_for : ℕ → γ → Option (RectQ × RectZ))
    (size : ℚ × ℚ) (positioned_glyphs : List γ) : List TexturedVertex :=
  (positioned_glyphs.filterMap (rect_for 0)).flatMap fun r =>
    let uv_rect := r.1
    let screen_rect := r.2
    let gl_min : ℚ × ℚ :=
      (((screen_rect.min.1 : ℚ) / size.1 - 1/2) * 2,
       (1 - (screen_rect.min.2 : ℚ) / size.2 - 1/2) * 2)
    let gl_max : ℚ × ℚ :=
      (((screen_rect.max.1 : ℚ) / size.1 - 1/2) * 2,
       (1 - (screen_rect.max.2 : ℚ) / size.2 - 1/2) * 2)
    [ { position := (gl_min.1, gl_min.2), tex_coords := (uv_rect.min.1, uv_rect.min.2) },
      { position := (gl_min.1, gl_max.2), tex_coords := (uv_rect.min.1, uv_rect.max.2) },
      { position := (gl_max.1, gl_max.2), tex_coords := (uv_rect.max.1, uv_rect.max.2) },
      { position := (gl_max.1, gl_min.2), tex_coords := (uv_rect.max.1, uv_rect.min.2) } ]

/-- The index computation of `Text::new` (`src/text.rs:442-453`):
`for i in 1..quad_num` push `[0,1,2,2,3,0]` offset by `4*i`, each value cast
through `u16` (`.. + 4 * i as u16`; the multiplication and addition wrap in
`u16`, which release builds evaluate modulo `2^16`). -/
def textIndices (quad_num : ℕ) : List ℕ :=
  (List.range' 1 (quad_num - 1)).flatMap fun i =>
    [ u16cast (0 + u16cast (4 * u16cast i)),
      u16cast (1 + u16cast (4 * u16cast i)),
      u16cast (2 + u16cast (4 * u16cast i)),
      u16cast (2 + u16cast (4 * u16cast i)),
      u16cast (3 + u16cast (4 * u16cast i)),
      u16cast (0 + u16cast (4 * u16cast i)) ]

/-- Drawable `Text` from `src/text.rs` (logical state, GPU handles elided;
the `logger` field is represented by the log traces the operations emit). -/
structure Text (γ : Type) where
  text : String
  position : ℚ × ℚ
  font_id : ℕ
  positioned_glyphs_id : ℕ
  vertices : List TexturedVertex
  indices : List ℕ
  mesh_uniform : MeshUniform
  vertex_buffer_to_update : Bool
  mesh_uniform_buffer_to_update : Bool

/-- Result of `Text::new`: the log trace, the constructed text and the
mutated handler. -/
structure NewTextResult (γ : Type) where
  logs : List LogLevel
  text : Text γ
  handler : TextHandler γ

/-- Replace the font stored under `id`. -/
def updateFont {γ : Type} (fonts : List (ℕ × FontData γ)) (id : ℕ) (fd : FontData γ) :
    List (ℕ × FontData γ) :=
  fonts.map (fun p => if p.1 = id then (id, fd) else p)

/-- `Text::new` (`src/text.rs:328-513`).  The glyph layout loop
(lines 353–393) is driven entirely by the external rusttype font (metrics,
kerning, bounding boxes); its resulting positioned-glyph list is the
`layout` parameter.  Font resolution falls back to the default font with a
logged warning when `descriptor.font_id` is not loaded; `none` models the
`rwlog::fatal` + `process::exit(1)` taken when even the default font is
missing. -/
def Text.new {γ : Type} (th : TextHandler γ) (textStr : String)
    (descriptor : TextDescriptor) (layout : List γ) : Option (NewTextResult γ) :=
  let resolved : Option (ℕ × FontData γ × List LogLevel) :=
    match th.fonts.lookup descriptor.font_id with
    | some fd => some (descriptor.font_id, fd, [])
    | none =>
      match th.fonts.lookup fontID_DEFAULT with
      | some fd => some (fontID_DEFAULT, fd, [LogLevel.warn])
      | none => none
  match resolved with
  | none => none
  | some (font_id, font_data, logs) =>
    let positioned_glyphs := layout
    let vertices := textVertices font_data.cache.rect_for descriptor.size positioned_glyphs
    let quad_num := vertices.length / 4
    let indices := textIndices quad_num
    let mesh_uniform := MeshUniform.new descriptor.position descriptor.z 0 (0, 0, 0, 0)
    let idAndFont := font_data.add_glyphs positioned_glyphs
    some
      { logs := logs
        text :=
          { text := textStr
            position := (0, 0)
            font_id := font_id
            positioned_glyphs_id := idAndFont.1
            vertices := vertices
            indices := indices
            mesh_uniform := mesh_uniform
            vertex_buffer_to_update := false
            mesh_uniform_buffer_to_update := false }
        handler := { fonts := updateFont th.fonts font_id idAndFont.2 } }

/-- The three outcomes of the rusttype `cache_queued` fill pass observed by
`Text::draw`: `Ok(CachedBy::Adding)`, `Ok(CachedBy::Reordering)`, or
`Err(_)` (cache too small). -/
inductive CacheOutcome where
  | adding
  | reordering
  | cacheError
deriving Repr, DecidableEq

/-- Set the enlarge flag of the font stored under `id`. -/
def setEnlarge {γ : Type} (fonts : List (ℕ × FontData γ)) (id : ℕ) :
    List (ℕ × FontData γ) :=
  fonts.map (fun p => if p.1 = id then (p.1, { p.2 with enlarge_cache := true }) else p)

/-- Result of `Text::draw`: the backend-call trace, the log trace, the text
with its dirty flags possibly cleared, and the handler with a possibly-set
enlarge flag. -/
structure TextDrawResult (γ : Type) where
  calls : List GpuCall
  logs : List LogLevel
  text : Text γ
  handler : TextHandler γ

/-- `Text::draw` (`src/text.rs:229-325`).  `active_pipeline_is_text` models
`ctx.active_pipeline_id() == pipeline::ID_TEXT`; `outcome` is the result of
the external packer's `cache_queued` pass and `fill_uploads` the number of
rectangle uploads its callback performed (each a `write_texture`).  The
function is total: every branch, including `Reordering` and `Err`, returns
normally. -/
def Text.draw {γ : Type} (t : Text γ) (active_pipeline_is_text : Bool)
    (th : TextHandler γ) (outcome : CacheOutcome) (fill_uploads : ℕ) :
    TextDrawResult γ :=
  if !active_pipeline_is_text then
    { calls := [], logs := [], text := t, handler := th }
  else
    -- Update the vertex buffer.
    let step₁ : List GpuCall × Text γ :=
      if t.vertex_buffer_to_update then
        ([GpuCall.writeBuffer BufKind.vertex], { t with vertex_buffer_to_update := false })
      else ([], t)
    let calls₁ := step₁.1
    let t := step₁.2
    -- Update the mesh uniform buffer.
    let step₂ : List GpuCall × Text γ :=
      if t.mesh_uniform_buffer_to_update then
        ([GpuCall.writeBuffer BufKind.meshUniform], { t with mesh_uniform_buffer_to_update := false })
      else ([], t)
    let calls₂ := step₂.1
    let t := step₂.2
    match th.fonts.lookup t.font_id with
    | some font_data =>
      match font_data.positioned_glyphs.lookup t.positioned_glyphs_id with
      | some _ =>
        let fill := List.replicate fill_uploads GpuCall.writeTexture
        match outcome with
        | CacheOutcome.adding =>
          -- Perform the draw calls.
          { calls := calls₁ ++ calls₂ ++ fill ++
              [GpuCall.setBindGroup 1, GpuCall.setBindGroup 2, GpuCall.setVertexBuffer 0,
               GpuCall.setIndexBuffer, GpuCall.drawIndexed t.indices.length]
            logs := [], text := t, handler := th }
        | CacheOutcome.reordering =>
          { calls := calls₁ ++ calls₂ ++ fill
            logs := [LogLevel.warn], text := t
            handler := { fonts := setEnlarge th.fonts t.font_id } }
        | CacheOutcome.cacheError =>
          { calls := calls₁ ++ calls₂ ++ fill
            logs := [LogLevel.warn], text := t
            handler := { fonts := setEnlarge th.fonts t.font_id } }
      | none =>
        { calls := calls₁ ++ calls₂, logs := [LogLevel.err], text := t, handler := th }
    | none =>
      { calls := calls₁ ++ calls₂, logs := [LogLevel.err], text := t, handler := th }

/-- `Text::set_position`. -/
def Text.set_position {γ : Type} (t : Text γ) (position : ℚ × ℚ) : Text γ :=
  { t with
    mesh_uniform := { t.mesh_uniform with position := position }
    mesh_uniform_buffer_to_update := true }

/-- The interpolation formula in the spec's words (§4.1 / P4): starting from
`current` with a fresh timer, each step closes `dt / remaining` of the
remaining gap toward `target`, where `remaining = duration - elapsed so far`.
Stated as a reference to compare `Animated::update` against. -/
def specGapClosing (current target : ℚ) (duration : ℤ) (dts : List ℤ) : ℚ :=
  (dts.foldl
    (fun (s : ℚ × ℤ) (dt : ℤ) =>
      let remaining : ℤ := duration - s.2
      (s.1 + (target - s.1) * ((dt : ℚ) / (remaining : ℚ)), s.2 + dt))
    ((current, 0) : ℚ × ℤ)).1

/-- A fresh, empty glyph cache over unit glyphs (concrete test fixture). -/
def cacheU : GlyphCache Unit := (TextHandler.create_cache Unit 1024 1024).1

/-- Concrete font data holding one positioned-glyph run under ID 1
(test fixture). -/
def fdU : FontData Unit :=
  { cache := cacheU
    enlarge_cache := false
    cache_texture_width := 1024
    cache_texture_height := 1024
    next_glyph_id := 2
    positioned_glyphs := [(1, [()])] }

/-- Concrete text handler with only the default font (test fixture). -/
def thU : TextHandler Unit := { fonts := [(fontID_DEFAULT, fdU)] }

/-- Concrete text object pointing at `thU`'s glyph run (test fixture). -/
def tU : Text Unit :=
  { text := "a"
    position := (0, 0)
    font_id := fontID_DEFAULT
    positioned_glyphs_id := 1
    vertices := []
    indices := []
    mesh_uniform := MeshUniform.new (0, 0) 0 0 (0, 0, 0, 0)
    vertex_buffer_to_update := false
    mesh_uniform_buffer_to_update := false }

/-- A concrete button with both dirty flags raised, as `Button::update`
leaves them during an active animation (test fixture). -/
def bC2 : Button :=
  { Button.new (0, 0) (10, 10) 0 (0, 0, 0, 0) with
    vertex_buffer_to_update := true
    mesh_uniform_buffer_to_update := true }

/-- A concrete sprite with both dirty flags raised (test fixture). -/
def sC2 : Sprite :=
  { Sprite.new (0, 0) (10, 10) 0 (0, 0, 0, 0) (some 3) with
    vertex_buffer_to_update := true
    mesh_uniform_buffer_to_update := true }

/-- The alpha offset currently stacked on a button's overlay target:
`0.1` per asserted flag (`hovered`, `pressed`). -/
def hoverPressBump (b : Button) : ℚ :=
  ((if b.hovered then (1 : ℚ) else 0) + (if b.pressed then (1 : ℚ) else 0)) / 10

/-! ## Theorems -/

/-- Duration of an `Animated` value is unchanged by any operation. -/
theorem AnimOp.apply_duration {α : Type} [DecidableEq α] [Lerp α]
    (a : Animated α) (op : AnimOp α) : (op.apply a).duration = a.duration := by
  cases op with
  | setTarget t => rfl
  | tick dt =>
    simp only [AnimOp.apply, Animated.update]
    split <;> rfl

/-- One operation with a non-negative tick keeps `elapsed_time ≤ duration`
(for retargets this needs `0 ≤ duration`). -/
theorem AnimOp.apply_elapsed_le {α : Type} [DecidableEq α] [Lerp α]
    (a : Animated α) (op : AnimOp α) (hd : 0 ≤ a.duration) :
    (op.apply a).elapsed_time ≤ (op.apply a).duration := by
  cases op with
  | setTarget t =>
    simpa [AnimOp.apply, Animated.set_target] using hd
  | tick dt =>
    simp only [AnimOp.apply, Animated.update]
    split
    · simp
    · rename_i h
      simp only
      omega

/-- C1: an `Animated<Point2<f32>>` at `(0,0)` targeting `(100,100)` over
200 ms: one `update(100ms)` closes half the remaining gap, reaching
`(50,50)`; a second `update(100ms)` hits the `remaining <= dt` snap branch,
so `current` is exactly `(100,100)`, `elapsed_time` equals `duration` and
`complete()` holds. -/
theorem animated_snap_scenario_C1 :
    ((((Animated.new ((0 : ℚ), (0 : ℚ)) (msNs 200)).set_target
        (100, 100)).update (msNs 100)).current = (50, 50)) ∧
    (((((Animated.new ((0 : ℚ), (0 : ℚ)) (msNs 200)).set_target
        (100, 100)).update (msNs 100)).update (msNs 100)).current = (100, 100)) ∧
    (((((Animated.new ((0 : ℚ), (0 : ℚ)) (msNs 200)).set_target
        (100, 100)).update (msNs 100)).update (msNs 100)).elapsed_time =
      ((((Animated.new ((0 : ℚ), (0 : ℚ)) (msNs 200)).set_target
        (100, 100)).update (msNs 100)).update (msNs 100)).duration) ∧
    (((((Animated.new ((0 : ℚ), (0 : ℚ)) (msNs 200)).set_target
        (100, 100)).update (msNs 100)).update (msNs 100)).complete = true) := by
  norm_num [Animated.new, Animated.set_target, Animated.update, Animated.complete,
    msNs, LerpRat, LerpPair, Lerp.addv, Lerp.scalev, Lerp.subv]

/-- The invariant `elapsed_time ≤ duration` is preserved along any run over
a non-negatively-dimensioned animation. -/
theorem AnimOp.run_elapsed_le {α : Type} [DecidableEq α] [Lerp α] :
    ∀ (ops : List (AnimOp α)) (a : Animated α), 0 ≤ a.duration →
      a.elapsed_time ≤ a.duration →
      (AnimOp.run a ops).elapsed_time ≤ (AnimOp.run a ops).duration
  | [], _, _, ha => ha
  | op :: rest, a, hd, ha => by
    have h1 := AnimOp.apply_elapsed_le a op hd
    have h2 : (op.apply a).duration = a.duration := AnimOp.apply_duration a op
    have h3 := AnimOp.run_elapsed_le rest (op.apply a) (h2 ▸ hd) h1
    simpa [AnimOp.run] using h3

/-- C4(counterexample): for an `Animated<f32>` with duration 1000 ms from 0
toward 100, three `update(250ms)` calls land exactly on `75` — the
linear-interpolation value the claim says is NOT reached.  (Each concrete
`f32` operation involved is exact, so the rational evaluation matches the
source's float evaluation.) -/
theorem animated_three_steps_C4_counterexample :
    (((((Animated.new (0 : ℚ) (msNs 1000)).set_target 100).update (msNs 250)).update
        (msNs 250)).update (msNs 250)).current = 75 := by
  norm_num [Animated.new, Animated.set_target, Animated.update, msNs, LerpRat,
    Lerp.addv, Lerp.scalev, Lerp.subv]

/-- C4(amended): after three `update(250ms)` calls the current value is the
one produced by the compounding close-`dt/remaining`-of-the-remaining-gap
formula — and that value coincides with the linear-interpolation value `75`
(tracking elapsed time makes the remaining-gap recurrence reproduce linear
interpolation exactly when no retarget intervenes). -/
theorem animated_three_steps_C4 :
    ((((((Animated.new (0 : ℚ) (msNs 1000)).set_target 100).update (msNs 250)).update
        (msNs 250)).update (msNs 250)).current =
      specGapClosing 0 100 (msNs 1000) [msNs 250, msNs 250, msNs 250]) ∧
    ((((((Animated.new (0 : ℚ) (msNs 1000)).set_target 100).update (msNs 250)).update
        (msNs 250)).update (msNs 250)).current = (75 : ℚ)) := by
  constructor <;>
    norm_num [Animated.new, Animated.set_target, Animated.update, msNs, LerpRat,
      Lerp.addv, Lerp.scalev, Lerp.subv, specGapClosing]

/-- C5(counterexample): `Animated::new` with the negative duration `-1 ns`
violates `elapsed_time ≤ duration` immediately: `elapsed_time = 0 > -1`. -/
theorem animated_neg_duration_C5_counterexample :
    ¬ ((Animated.new (0 : ℚ) (-1)).elapsed_time ≤ (Animated.new (0 : ℚ) (-1)).duration) := by
  decide

/-- C5(amended): for every `Animated<T>` constructed with a NON-NEGATIVE
duration, `elapsed_time ≤ duration` holds after `new` and after every
sequence of `set_target` and `update` operations with non-negative `dt`.
(The claim included zero-or-negative construction durations; a negative
duration falsifies the invariant at `new`, see the counterexample.  Zero
durations are fine and are covered here.) -/
theorem animated_elapsed_le_duration_C5 {α : Type} [DecidableEq α] [Lerp α]
    (c : α) (d : ℤ) (hd : 0 ≤ d) (ops : List (AnimOp α))
    (_hops : ∀ op ∈ ops, op.nonnegDt = true) :
    (AnimOp.run (Animated.new c d) ops).elapsed_time ≤
      (AnimOp.run (Animated.new c d) ops).duration :=
  AnimOp.run_elapsed_le ops (Animated.new c d) hd hd

/-- C5 witness: a concrete run — retarget, a partial tick and an
overshooting tick on a 100 ms animation — keeps `elapsed_time ≤ duration`. -/
theorem animated_elapsed_le_duration_C5_witness :
    (0 ≤ msNs 100) ∧
    ((AnimOp.run (Animated.new (0 : ℚ) (msNs 100))
        [AnimOp.setTarget 5, AnimOp.tick (msNs 30), AnimOp.tick (msNs 200)]).elapsed_time ≤
      (AnimOp.run (Animated.new (0 : ℚ) (msNs 100))
        [AnimOp.setTarget 5, AnimOp.tick (msNs 30), AnimOp.tick (msNs 200)]).duration) :=
  ⟨by decide,
    animated_elapsed_le_duration_C5 0 (msNs 100) (by decide) _ (by decide)⟩

/-- Each processed event preserves `overlay_alpha.target - hoverPressBump`:
every effective `±0.1` retarget coincides with a flag flip. -/
theorem Button.consume_event_alpha (b : Button) (e : ButtonEvent) :
    (b.consume_event e).1.overlay_alpha.target - hoverPressBump (b.consume_event e).1 =
      b.overlay_alpha.target - hoverPressBump b := by
  cases e with
  | cursorMoved x y =>
    cases hb : b.hovered <;> cases hp : b.pressed <;>
      simp only [Button.consume_event, hb, hp] <;>
      split_ifs <;>
      simp_all [hoverPressBump, Animated.set_target] <;>
      ring
  | mouseInputLeft st =>
    cases st <;> cases hb : b.hovered <;> cases hp : b.pressed <;>
      simp only [Button.consume_event, hb, hp] <;>
      split_ifs <;>
      simp_all [hoverPressBump, Animated.set_target] <;>
      ring
  | other => rfl

/-- The event-sequence fold preserves the same quantity. -/
theorem Button.consume_events_alpha (b : Button) (events : List ButtonEvent) :
    (b.consume_events events).overlay_alpha.target - hoverPressBump (b.consume_events events) =
      b.overlay_alpha.target - hoverPressBump b := by
  induction events generalizing b with
  | nil => rfl
  | cons e rest ih =>
    have hstep := Button.consume_event_alpha b e
    have htail := ih (b.consume_event e).1
    calc (b.consume_events (e :: rest)).overlay_alpha.target -
          hoverPressBump (b.consume_events (e :: rest))
        = ((b.consume_event e).1.consume_events rest).overlay_alpha.target -
          hoverPressBump ((b.consume_event e).1.consume_events rest) := rfl
      _ = (b.consume_event e).1.overlay_alpha.target -
          hoverPressBump (b.consume_event e).1 := htail
      _ = b.overlay_alpha.target - hoverPressBump b := hstep

/-- C6: for every sequence of cursor/mouse events processed by
`Button::consume_event`, if the sequence returns the hover and press flags
to their initial unset state (each effective enter matched by a leave, each
press by a release), the `overlay_alpha` target returns exactly to its
original value — the stacked `+0.1`/`-0.1` retargets cancel with no drift
(exact on the reachable `f32` values `{0, 0.1, 0.2}`). -/
theorem button_alpha_reversible_C6 (b : Button) (events : List ButtonEvent)
    (h0 : b.hovered = false) (p0 : b.pressed = false)
    (h1 : (b.consume_events events).hovered = false)
    (p1 : (b.consume_events events).pressed = false) :
    (b.consume_events events).overlay_alpha.target = b.overlay_alpha.target := by
  have h := Button.consume_events_alpha b events
  simp [hoverPressBump, h0, p0, h1, p1] at h
  exact h

/-- C6 witness: enter, press, release, leave on a concrete button at
`(0,0)` with size `(10,10)` ends un-hovered and un-pressed, and the alpha
target is back at its original `0`. -/
theorem button_alpha_reversible_C6_witness :
    (((Button.new (0, 0) (10, 10) 0 (0, 0, 0, 0)).consume_events
        [ButtonEvent.cursorMoved 5 5, ButtonEvent.mouseInputLeft true,
         ButtonEvent.mouseInputLeft false, ButtonEvent.cursorMoved 20 20]).hovered = false) ∧
    (((Button.new (0, 0) (10, 10) 0 (0, 0, 0, 0)).consume_events
        [ButtonEvent.cursorMoved 5 5, ButtonEvent.mouseInputLeft true,
         ButtonEvent.mouseInputLeft false, ButtonEvent.cursorMoved 20 20]).pressed = false) ∧
    (((Button.new (0, 0) (10, 10) 0 (0, 0, 0, 0)).consume_events
        [ButtonEvent.cursorMoved 5 5, ButtonEvent.mouseInputLeft true,
         ButtonEvent.mouseInputLeft false, ButtonEvent.cursorMoved 20 20]).overlay_alpha.target =
      (Button.new (0, 0) (10, 10) 0 (0, 0, 0, 0)).overlay_alpha.target) := by
  have hflags :
      (((Button.new (0, 0) (10, 10) 0 (0, 0, 0, 0)).consume_events
        [ButtonEvent.cursorMoved 5 5, ButtonEvent.mouseInputLeft true,
         ButtonEvent.mouseInputLeft false, ButtonEvent.cursorMoved 20 20]).hovered = false) ∧
      (((Button.new (0, 0) (10, 10) 0 (0, 0, 0, 0)).consume_events
        [ButtonEvent.cursorMoved 5 5, ButtonEvent.mouseInputLeft true,
         ButtonEvent.mouseInputLeft false, ButtonEvent.cursorMoved 20 20]).pressed = false) := by
    norm_num [Button.consume_events, Button.consume_event, Button.new,
      Animated.new, Animated.set_target]
  exact ⟨hflags.1, hflags.2,
    button_alpha_reversible_C6 _ _ rfl rfl hflags.1 hflags.2⟩

/-- C2: the check-and-clear protocol claim fails on `Button::draw`'s vertex
buffer: for EVERY button the draw emits zero vertex-buffer uploads (the
`write_buffer` call at `src/button.rs:136` is commented out) even though the
flag is checked and reset.  Evaluated at the failing input `bC2` (both flags
raised): the vertex flag is cleared with no upload, while the mesh-uniform
path — and `Sprite::draw`'s vertex path, shown for contrast — issue exactly
one upload each before clearing. -/
theorem button_draw_missing_vertex_write_C2 :
    (∀ b : Button, countWrites (Button.draw b).1 BufKind.vertex = 0) ∧
    (countWrites (Button.draw bC2).1 BufKind.vertex = 0 ∧
      (Button.draw bC2).2.vertex_buffer_to_update = false ∧
      countWrites (Button.draw bC2).1 BufKind.meshUniform = 1) ∧
    (Sprite.draw sC2 [(texture.ID_EMPTY, 0)] =
      some ([GpuCall.writeBuffer BufKind.vertex, GpuCall.writeBuffer BufKind.meshUniform,
             GpuCall.setBindGroup 1, GpuCall.setBindGroup 2, GpuCall.setVertexBuffer 0,
             GpuCall.setIndexBuffer, GpuCall.drawIndexed 6],
            { sC2 with vertex_buffer_to_update := false, mesh_uniform_buffer_to_update := false },
            0)) := by
  refine ⟨?_, ?_, ?_⟩
  · intro b
    cases hv : b.vertex_buffer_to_update <;> cases hm : b.mesh_uniform_buffer_to_update <;>
      simp [Button.draw, countWrites, hv, hm]
  · refine ⟨?_, ?_, ?_⟩ <;> rfl
  · rfl

/-- Looking up after a value-only map transformation. -/
theorem lookup_map_keyed {γ : Type} (fonts : List (ℕ × FontData γ))
    (f : FontData γ → FontData γ) (id : ℕ) :
    (fonts.map (fun p => (p.1, f p.2))).lookup id = (fonts.lookup id).map f := by
  induction fonts with
  | nil => rfl
  | cons p rest ih =>
    obtain ⟨k, v⟩ := p
    cases hik : (id == k) <;> simp [List.lookup, hik, ih]

/-- Unfolding `setEnlarge` one entry at a time. -/
theorem setEnlarge_cons {γ : Type} (k : ℕ) (v : FontData γ)
    (rest : List (ℕ × FontData γ)) (id : ℕ) :
    setEnlarge ((k, v) :: rest) id =
      (if k = id then (k, { v with enlarge_cache := true }) else (k, v)) ::
        setEnlarge rest id := by
  simp only [setEnlarge, List.map_cons]

/-- Looking up the flagged font after `setEnlarge`. -/
theorem lookup_setEnlarge {γ : Type} (fonts : List (ℕ × FontData γ)) (id : ℕ) :
    (setEnlarge fonts id).lookup id =
      (fonts.lookup id).map (fun fd => { fd with enlarge_cache := true }) := by
  induction fonts with
  | nil => rfl
  | cons p rest ih =>
    obtain ⟨k, v⟩ := p
    rw [setEnlarge_cons]
    by_cases hk : k = id
    · subst hk
      rw [if_pos rfl]
      simp [List.lookup]
    · rw [if_neg hk]
      have hik : (id == k) = false := beq_eq_false_iff_ne.mpr (Ne.symm hk)
      simp [List.lookup, hik, ih]

/-- A flagged font's resize step doubles both texture and cache dimensions
and clears the flag. -/
theorem FontData.resize_step_enlarged {γ : Type} (fd : FontData γ)
    (h : fd.enlarge_cache = true) :
    fd.resize_step.cache_texture_width = fd.cache_texture_width * 2 ∧
    fd.resize_step.cache_texture_height = fd.cache_texture_height * 2 ∧
    fd.resize_step.cache.width = fd.cache_texture_width * 2 ∧
    fd.resize_step.cache.height = fd.cache_texture_height * 2 ∧
    fd.resize_step.enlarge_cache = false := by
  simp [FontData.resize_step, h, TextHandler.create_cache]

/-- The resize step is idempotent: a second pass with no new overflow is a
no-op. -/
theorem FontData.resize_step_idem {γ : Type} (fd : FontData γ) :
    fd.resize_step.resize_step = fd.resize_step := by
  by_cases h : fd.enlarge_cache <;>
    simp [FontData.resize_step, h, TextHandler.create_cache]

/-- `resize_caches` is idempotent on the whole handler. -/
theorem TextHandler.resize_caches_idem {γ : Type} (th : TextHandler γ) :
    th.resize_caches.resize_caches = th.resize_caches := by
  cases th with
  | mk fonts =>
    simp only [TextHandler.resize_caches, List.map_map]
    congr 1
    apply List.map_congr_left
    intro p _
    simp [Function.comp, FontData.resize_step_idem]

/-- C3: after a `Reordering` or overflow (`Err`) cache-fill outcome in
`Text::draw` sets the font's enlarge flag, the next `resize_caches` call
replaces the atlas with one of exactly double width and height — once — and
clears the flag; running `resize_caches` again with no new overflow changes
nothing (growth is monotonic, the atlas never shrinks). -/
theorem atlas_growth_C3 {γ : Type} (t : Text γ) (th : TextHandler γ)
    (fd : FontData γ) (gl : List γ) (outcome : CacheOutcome) (k : ℕ)
    (hfont : th.fonts.lookup t.font_id = some fd)
    (hglyphs : fd.positioned_glyphs.lookup t.positioned_glyphs_id = some gl)
    (houtcome : outcome ≠ CacheOutcome.adding) :
    ((t.draw true th outcome k).handler.fonts.lookup t.font_id =
        some { fd with enlarge_cache := true }) ∧
    ((t.draw true th outcome k).handler.resize_caches.fonts.lookup t.font_id =
        some (FontData.resize_step { fd with enlarge_cache := true }) ∧
      (FontData.resize_step { fd with enlarge_cache := true }).cache_texture_width =
        fd.cache_texture_width * 2 ∧
      (FontData.resize_step { fd with enlarge_cache := true }).cache_texture_height =
        fd.cache_texture_height * 2 ∧
      (FontData.resize_step { fd with enlarge_cache := true }).cache.width =
        fd.cache_texture_width * 2 ∧
      (FontData.resize_step { fd with enlarge_cache := true }).cache.height =
        fd.cache_texture_height * 2 ∧
      (FontData.resize_step { fd with enlarge_cache := true }).enlarge_cache = false) ∧
    ((t.draw true th outcome k).handler.resize_caches.resize_caches =
      (t.draw true th outcome k).handler.resize_caches) := by
  have hhandler : (t.draw true th outcome k).handler =
      { fonts := setEnlarge th.fonts t.font_id } := by
    cases outcome with
    | adding => exact absurd rfl houtcome
    | reordering =>
      cases hv : t.vertex_buffer_to_update <;> cases hm : t.mesh_uniform_buffer_to_update <;>
        simp [Text.draw, hfont, hglyphs, hv, hm]
    | cacheError =>
      cases hv : t.vertex_buffer_to_update <;> cases hm : t.mesh_uniform_buffer_to_update <;>
        simp [Text.draw, hfont, hglyphs, hv, hm]
  refine ⟨?_, ⟨?_, ?_, ?_, ?_, ?_, ?_⟩, ?_⟩
  · rw [hhandler]
    simp [lookup_setEnlarge, hfont]
  · rw [hhandler]
    simp only [TextHandler.resize_caches]
    rw [lookup_map_keyed, lookup_setEnlarge, hfont]
    rfl
  · exact (FontData.resize_step_enlarged _ rfl).1
  · exact (FontData.resize_step_enlarged _ rfl).2.1
  · exact (FontData.resize_step_enlarged _ rfl).2.2.1
  · exact (FontData.resize_step_enlarged _ rfl).2.2.2.1
  · exact (FontData.resize_step_enlarged _ rfl).2.2.2.2
  · rw [hhandler]
    exact TextHandler.resize_caches_idem _

/-- C3 witness: a concrete text over the concrete handler `thU`, drawn with
a `Reordering` outcome, then resized: the 1024×1024 atlas becomes 2048×2048
once, the flag clears, and a second resize is a no-op. -/
theorem atlas_growth_C3_witness :
    ((tU.draw true thU CacheOutcome.reordering 0).handler.fonts.lookup tU.font_id =
        some { fdU with enlarge_cache := true }) ∧
    ((tU.draw true thU CacheOutcome.reordering 0).handler.resize_caches.fonts.lookup tU.font_id =
        some (FontData.resize_step { fdU with enlarge_cache := true }) ∧
      (FontData.resize_step { fdU with enlarge_cache := true }).cache_texture_width =
        fdU.cache_texture_width * 2 ∧
      (FontData.resize_step { fdU with enlarge_cache := true }).cache_texture_height =
        fdU.cache_texture_height * 2 ∧
      (FontData.resize_step { fdU with enlarge_cache := true }).cache.width =
        fdU.cache_texture_width * 2 ∧
      (FontData.resize_step { fdU with enlarge_cache := true }).cache.height =
        fdU.cache_texture_height * 2 ∧
      (FontData.resize_step { fdU with enlarge_cache := true }).enlarge_cache = false) ∧
    ((tU.draw true thU CacheOutcome.reordering 0).handler.resize_caches.resize_caches =
      (tU.draw true thU CacheOutcome.reordering 0).handler.resize_caches) :=
  atlas_growth_C3 tU thU fdU [()] CacheOutcome.reordering 0 rfl rfl (by decide)

/-- C7: resource lookup by ID never fails hard.  Creating a `Text` with an
unloaded font ID falls back to `text::ID_DEFAULT` with a logged warning and
returns normally (no crash), and drawing a `Sprite` whose texture ID is not
loaded binds the guaranteed empty texture instead of failing. -/
theorem resource_fallback_C7 {γ τ : Type} (th : TextHandler γ) (fdDef : FontData γ)
    (textStr : String) (d : TextDescriptor) (layout : List γ)
    (hmissing : th.fonts.lookup d.font_id = none)
    (hdef : th.fonts.lookup fontID_DEFAULT = some fdDef)
    (textures : List (ℕ × τ)) (emptyTex : τ) (s : Sprite)
    (htex : textures.lookup texture.ID_EMPTY = some emptyTex)
    (hstex : textures.lookup s.texture_id = none) :
    (∃ res : NewTextResult γ, Text.new th textStr d layout = some res ∧
        res.text.font_id = fontID_DEFAULT ∧ res.logs = [LogLevel.warn]) ∧
    (∃ r : List GpuCall × Sprite × τ, Sprite.draw s textures = some r ∧ r.2.2 = emptyTex) := by
  constructor
  · simp only [Text.new, hmissing, hdef]
    exact ⟨_, rfl, rfl, rfl⟩
  · cases hv : s.vertex_buffer_to_update <;> cases hm : s.mesh_uniform_buffer_to_update <;>
      simp [Sprite.draw, Sprite.resolveTexture, htex, hstex, hv, hm]

/-- C7 witness: on the concrete handler `thU` (default font only), creating
a text with unknown font ID 9 falls back to the default font with one
warning; a sprite with unknown texture ID 42 drawn against a texture map
containing only the empty texture (ID 1, here the value 77) binds it. -/
theorem resource_fallback_C7_witness :
    (∃ res : NewTextResult Unit,
        Text.new thU "x" ⟨9, 12, (0, 0, 0, 0), (0, 0), (100, 50), 0⟩ [] = some res ∧
        res.text.font_id = fontID_DEFAULT ∧ res.logs = [LogLevel.warn]) ∧
    (∃ r : List GpuCall × Sprite × ℕ,
        Sprite.draw (Sprite.new (0, 0) (5, 5) 0 (0, 0, 0, 0) (some 42)) [(1, 77)] = some r ∧
        r.2.2 = 77) :=
  resource_fallback_C7 thU fdU "x" ⟨9, 12, (0, 0, 0, 0), (0, 0), (100, 50), 0⟩ [] rfl rfl
    [(1, 77)] 77 (Sprite.new (0, 0) (5, 5) 0 (0, 0, 0, 0) (some 42)) rfl rfl

/-- C8: `Text::new` emits a quad only for glyphs whose rectangle is already
resident in the cache (looked up under the hard-coded cache font index 0),
so with a cache that has nothing under index 0 — in particular the fresh
cache of a new `TextHandler` — the constructed text has empty vertex and
index lists; and no later operation (`draw`, which only re-uploads the
stored `self.vertices`, or `set_position`) ever recomputes either list. -/
theorem text_fresh_cache_empty_C8 {γ : Type} (th : TextHandler γ) (textStr : String)
    (d : TextDescriptor) (layout : List γ) (fd : FontData γ)
    (hfd : th.fonts.lookup d.font_id = some fd)
    (hfresh : ∀ g : γ, fd.cache.rect_for 0 g = none) :
    (∃ res : NewTextResult γ, Text.new th textStr d layout = some res ∧
        res.text.vertices = [] ∧ res.text.indices = []) ∧
    (∀ (t : Text γ) (active : Bool) (th' : TextHandler γ) (outcome : CacheOutcome) (k : ℕ),
        (t.draw active th' outcome k).text.vertices = t.vertices ∧
        (t.draw active th' outcome k).text.indices = t.indices) ∧
    (∀ (t : Text γ) (p : ℚ × ℚ),
        (t.set_position p).vertices = t.vertices ∧ (t.set_position p).indices = t.indices) := by
  have h0 : fd.cache.rect_for 0 = fun _ => none := funext hfresh
  have hvert : textVertices fd.cache.rect_for d.size layout = [] := by
    rw [textVertices, h0]
    rw [List.filterMap_eq_nil_iff.mpr (fun a _ => rfl)]
    rfl
  refine ⟨?_, ?_, ?_⟩
  · simp only [Text.new, hfd]
    exact ⟨_, rfl, hvert, by simp [hvert, textIndices]⟩
  · intro t active th' outcome k
    cases active with
    | false => exact ⟨rfl, rfl⟩
    | true =>
      cases hv : t.vertex_buffer_to_update <;> cases hm : t.mesh_uniform_buffer_to_update <;>
        · simp only [Text.draw, hv, hm, Bool.not_true, Bool.false_eq_true, if_false]
          constructor <;>
            · repeat' split
              all_goals rfl
  · intro t p
    exact ⟨rfl, rfl⟩

/-- C8 witness: on the concrete fresh handler `thU`, a two-glyph text gets
empty vertex and index lists, and the invariance conjuncts hold. -/
theorem text_fresh_cache_empty_C8_witness :
    (∃ res : NewTextResult Unit,
        Text.new thU "hi" ⟨1, 12, (0, 0, 0, 0), (0, 0), (100, 50), 0⟩ [(), ()] = some res ∧
        res.text.vertices = [] ∧ res.text.indices = []) ∧
    (∀ (t : Text Unit) (active : Bool) (th' : TextHandler Unit) (outcome : CacheOutcome) (k : ℕ),
        (t.draw active th' outcome k).text.vertices = t.vertices ∧
        (t.draw active th' outcome k).text.indices = t.indices) ∧
    (∀ (t : Text Unit) (p : ℚ × ℚ),
        (t.set_position p).vertices = t.vertices ∧ (t.set_position p).indices = t.indices) :=
  text_fresh_cache_empty_C8 thU "hi" ⟨1, 12, (0, 0, 0, 0), (0, 0), (100, 50), 0⟩ [(), ()] fdU
    rfl (fun _ => rfl)

/-- The index loop body always contributes six indices, so the loop yields
`6 * (quad_num - 1)` in total. -/
theorem textIndices_length (n : ℕ) : (textIndices n).length = 6 * (n - 1) := by
  rw [textIndices, List.length_flatMap]
  simp only [Function.comp_def, List.length_cons, List.length_nil]
  simp [List.map_const', List.sum_replicate, List.length_range']
  omega

/-- C9(counterexample): at `n = 16385` quads the `u16` arithmetic in the
index loop wraps (`4 * 16384 = 65536 ≡ 0 mod 2^16`), so the generated
indices DO include `0`, contradicting the claim's universal
"no generated index lies in 0..=3". -/
theorem text_indices_wrap_C9_counterexample : 0 ∈ textIndices 16385 := by
  rw [textIndices]
  refine List.mem_flatMap.mpr ⟨16384, ?_, ?_⟩
  · rw [List.mem_range'_1]
    omega
  · decide

/-- C9(amended): for every quad count `n ≥ 1` the index loop produces
exactly `6 * (n - 1)` indices (never `6 * n`); and as long as `n ≤ 16384` —
below the `u16` wrap threshold — no generated index lies in `0..=3`, so the
first quad's vertices are never referenced.  (For larger `n` the wrapping
`u16` arithmetic reintroduces indices below 4, see the counterexample.) -/
theorem text_indices_C9 (n : ℕ) (hn : 1 ≤ n) :
    (textIndices n).length = 6 * (n - 1) ∧
    (textIndices n).length ≠ 6 * n ∧
    (n ≤ 16384 → ∀ idx ∈ textIndices n, 4 ≤ idx) := by
  refine ⟨textIndices_length n, ?_, ?_⟩
  · rw [textIndices_length]
    omega
  · intro hb idx hidx
    rw [textIndices] at hidx
    obtain ⟨i, hi, hfi⟩ := List.mem_flatMap.mp hidx
    rw [List.mem_range'_1] at hi
    simp only [List.mem_cons, List.not_mem_nil, or_false] at hfi
    rcases hfi with h | h | h | h | h | h <;> subst h <;> simp only [u16cast] <;> omega

/-- C9 witness: at `n = 3` the loop yields `12 = 6*(3-1)` indices, all
at least 4. -/
theorem text_indices_C9_witness :
    (textIndices 3).length = 6 * (3 - 1) ∧
    (textIndices 3).length ≠ 6 * 3 ∧
    (3 ≤ 16384 → ∀ idx ∈ textIndices 3, 4 ≤ idx) :=
  text_indices_C9 3 (by decide)

/-- `any` over a replicated element on which the predicate is false. -/
theorem any_replicate_eq_false {β : Type} (k : ℕ) (x : β) (f : β → Bool)
    (hf : f x = false) : (List.replicate k x).any f = false := by
  induction k with
  | zero => rfl
  | succ k ih => simp [List.replicate_succ, hf, ih]

/-- C10: when the cache-fill pass in `Text::draw` comes back `Reordering`
or `Err`, the draw issues none of the bind-group, vertex-buffer,
index-buffer or `draw_indexed` calls for that text this frame; it logs
exactly one warning and sets the font's enlarge flag.  The model of the
function is total and returns no error value, matching the source, which
neither panics nor has an error return type on this path. -/
theorem text_draw_failure_isolation_C10 {γ : Type} (t : Text γ) (th : TextHandler γ)
    (fd : FontData γ) (gl : List γ) (outcome : CacheOutcome) (k : ℕ)
    (hfont : th.fonts.lookup t.font_id = some fd)
    (hglyphs : fd.positioned_glyphs.lookup t.positioned_glyphs_id = some gl)
    (houtcome : outcome ≠ CacheOutcome.adding) :
    hasDrawSequenceCall (t.draw true th outcome k).calls = false ∧
    (t.draw true th outcome k).logs = [LogLevel.warn] ∧
    (t.draw true th outcome k).handler.fonts.lookup t.font_id =
      some { fd with enlarge_cache := true } := by
  cases outcome with
  | adding => exact absurd rfl houtcome
  | reordering =>
    cases hv : t.vertex_buffer_to_update <;> cases hm : t.mesh_uniform_buffer_to_update <;>
      refine ⟨?_, ?_, ?_⟩ <;>
        simp [Text.draw, hfont, hglyphs, hv, hm, hasDrawSequenceCall,
          any_replicate_eq_false, lookup_setEnlarge]
  | cacheError =>
    cases hv : t.vertex_buffer_to_update <;> cases hm : t.mesh_uniform_buffer_to_update <;>
      refine ⟨?_, ?_, ?_⟩ <;>
        simp [Text.draw, hfont, hglyphs, hv, hm, hasDrawSequenceCall,
          any_replicate_eq_false, lookup_setEnlarge]

/-- C10 witness: the concrete text `tU` drawn over `thU` with a
`Reordering` outcome and two glyph uploads emits no draw-sequence calls,
logs one warning, and flags the default font's cache for enlargement. -/
theorem text_draw_failure_isolation_C10_witness :
    hasDrawSequenceCall (tU.draw true thU CacheOutcome.reordering 2).calls = false ∧
    (tU.draw true thU CacheOutcome.reordering 2).logs = [LogLevel.warn] ∧
    (tU.draw true thU CacheOutcome.reordering 2).handler.fonts.lookup tU.font_id =
      some { fdU with enlarge_cache := true } :=
  text_draw_failure_isolation_C10 tU thU fdU [()] CacheOutcome.reordering 2 rfl rfl (by decide)
